import Mathlib

/-!
Shallow embedding of the frame rendering engine of the
`webgpu-webcomponent` repository, and proofs of the claims of the spec.

Sources embedded here:
- `src/webgpu-image.js` — the `<webgpu-image>` custom element
  (namespace `JsComponent`);
- `src/app/components/WebGPUImage.tsx` — the React renderer, including the
  visibility-gated variant (namespace `TsxRenderer`);
- shared resource-factory logic common to the variants (namespace `Engine`).

Machine numbers carried by uniform data and wall-clock timestamps are
modelled as exact rationals; byte sizes and usage bitmasks as naturals.
-/

namespace Engine

/-- Bit of `GPUTextureUsage.COPY_DST`, as in the WebGPU API used by the source. -/
def GPUTextureUsage_COPY_DST : Nat := 2

/-- Bit of `GPUTextureUsage.TEXTURE_BINDING`. -/
def GPUTextureUsage_TEXTURE_BINDING : Nat := 4

/-- Bit of `GPUTextureUsage.RENDER_ATTACHMENT`. -/
def GPUTextureUsage_RENDER_ATTACHMENT : Nat := 16

/-- Texture formats that occur in the source: the fixed `"rgba8unorm"` used
for image textures, and the preferred canvas format of the platform. -/
inductive TexFormat where
  | rgba8unorm
  | preferredCanvas
deriving DecidableEq, Repr

/-- Descriptor of a texture created by `device.createTexture`, keeping the
fields the source passes: `size: [img.width, img.height]`, `format`,
`usage`. -/
structure TextureDescriptor where
  width : Nat
  height : Nat
  format : TexFormat
  usage : Nat
deriving DecidableEq, Repr

/-- Sampler address modes occurring in the source (`clamp-to-edge` in the
TSX variants; the JS variants give no address mode, i.e. the default, which
is also `clamp-to-edge`). -/
inductive AddressMode where
  | clampToEdge
deriving DecidableEq, Repr

/-- Filter modes occurring in the source. -/
inductive FilterMode where
  | linear
deriving DecidableEq, Repr

/-- Descriptor of a sampler created by `device.createSampler`. -/
structure SamplerDescriptor where
  magFilter : FilterMode
  minFilter : FilterMode
  addressModeU : AddressMode
  addressModeV : AddressMode
deriving DecidableEq, Repr

/-- Operations enqueued on `device.queue`, in program order:
`copyExternalImageToTexture` with a full `[width, height]` extent,
`writeBuffer(buffer, byteOffset, data)` (recorded as offset and byte
length), and `submit`. -/
inductive QueueOp where
  | copyExternalImage (width height : Nat)
  | writeBuffer (byteOffset byteLength : Nat)
  | submit
deriving DecidableEq, Repr

/-- Embedding of `createTextureAndSampler(device, img)` from
`src/webgpu-image.js` lines 107-126 and
`src/app/components/WebGPUImage.tsx` lines 509-535: creates a 2D texture
sized `[img.width, img.height]`, format `rgba8unorm`, usage
`TEXTURE_BINDING | COPY_DST | RENDER_ATTACHMENT`, queues a
`copyExternalImageToTexture` over the full `[img.width, img.height]`
extent, and creates a linear clamp-to-edge sampler. -/
def createTextureAndSampler (imgWidth imgHeight : Nat) :
    TextureDescriptor × SamplerDescriptor × List QueueOp :=
  (⟨imgWidth, imgHeight, TexFormat.rgba8unorm,
      GPUTextureUsage_TEXTURE_BINDING ||| GPUTextureUsage_COPY_DST |||
        GPUTextureUsage_RENDER_ATTACHMENT⟩,
   ⟨FilterMode.linear, FilterMode.linear,
      AddressMode.clampToEdge, AddressMode.clampToEdge⟩,
   [QueueOp.copyExternalImage imgWidth imgHeight])

/-- The queue operations enqueued during initialization: exactly the
texture copy queued inside `createTextureAndSampler` (per-frame uniform
writes happen only later, in `render`). -/
def initQueueOps (imgWidth imgHeight : Nat) : List QueueOp :=
  (createTextureAndSampler imgWidth imgHeight).2.2

end Engine

namespace JsComponent

open Engine

/-! ### `src/webgpu-image.js` — the `<webgpu-image>` custom element -/

/-- Uniform buffer allocated at `src/webgpu-image.js` lines 88-91:
`device.createBuffer({ size: 48, usage: UNIFORM | COPY_DST })`. -/
def uniformBufferSize : Nat := 48

/-- WGSL size of `struct Uniforms { tintColor: vec4f, time: f32,
padding: vec3f }` from the shader of the element: 16 + 4 + (pad to 16) + 12,
rounded to the 16-byte struct alignment = 48 bytes. -/
def shaderRecordByteSize : Nat := 48

/-- Uniform record of `updateUniformBuffer(time)` (lines 181-185): it builds
`new Float32Array(12)` (zero-filled) and `set([1, 1, 1, 1, time])`:
twelve 32-bit floats, the first five being the tint color and the time. -/
def updateUniformData (time : ℚ) : List ℚ :=
  [1, 1, 1, 1, time, 0, 0, 0, 0, 0, 0, 0]

/-- The queue write issued by `updateUniformBuffer`:
`writeBuffer(this.uniformBuffer, 0, uniformData)` — byte offset 0,
length 12 × 4 bytes. -/
def updateUniformWriteOp (time : ℚ) : QueueOp :=
  QueueOp.writeBuffer 0 ((updateUniformData time).length * 4)

/-- State of the animation-frame scheduling of the element: the number of live
`requestAnimationFrame` callbacks registered for this element. The source
stores no handle and never calls `cancelAnimationFrame`. -/
structure LoopState where
  scheduled : Nat
deriving DecidableEq, Repr

/-- The tail of `render()` (lines 187-210):
`requestAnimationFrame(() => this.render())` — registers one more callback;
nothing is cancelled first and no handle is kept. -/
def renderSchedule (s : LoopState) : LoopState :=
  ⟨s.scheduled + 1⟩

/-- Completion of `initWebGPU()` (lines 32-50): after the awaited setup it
sets `startTime` and calls `this.render()`, which ends by scheduling a new
callback. Called from `connectedCallback` and again from
`attributeChangedCallback` whenever the `src` attribute changes
(lines 26-30), with no cancellation of any live callback. -/
def initWebGPU (s : LoopState) : LoopState :=
  renderSchedule s

/-- A live scheduled callback fires: it is consumed, and the `render()` it
runs re-arms one new callback. -/
def frameFire (s : LoopState) : LoopState :=
  ⟨s.scheduled - 1 + 1⟩

/-! #### Error handling of the setup path of the element -/

/-- GPU capability of the host platform, as probed by the source:
`navigator.gpu` may be absent, or `requestAdapter()` may yield null. -/
inductive Platform where
  | noGpu
  | noAdapter
  | ok
deriving DecidableEq, Repr

/-- Initialization-failure taxonomy of the spec (§7). -/
inductive InitError where
  | UnsupportedPlatform
  | NoAdapter
deriving DecidableEq, Repr

/-- Embedding of `initDevice()` (lines 100-105): throws `"WebGPU not supported"` when
`navigator.gpu` is absent, `"No adapter found"` when no adapter is
negotiated, otherwise resolves with the device. -/
def initDevice : Platform → Except InitError Unit
  | Platform.noGpu => Except.error InitError.UnsupportedPlatform
  | Platform.noAdapter => Except.error InitError.NoAdapter
  | Platform.ok => Except.ok ()

/-- Result of the method `initializeWebGPU` of the element (lines 62-98), recording
whether a device and pipeline were actually produced. -/
structure SetupResult where
  deviceReady : Bool
deriving DecidableEq, Repr

/-- Control flow of `initializeWebGPU(imgSrc)` (lines 62-98). When
`navigator.gpu` is absent it does `console.error(...)` and `return` — a
NORMAL return carrying no device and no thrown error. Otherwise it awaits
`initDevice()` (whose exceptions propagate) and builds the resources. -/
def setupWebGPU : Platform → Except InitError SetupResult
  | Platform.noGpu => Except.ok ⟨false⟩
  | p => (initDevice p).map fun _ => ⟨true⟩

/-- Outcome of the whole `initWebGPU()` run of the element (lines 32-50) on a given
platform: whether the render loop was started, and which error (if any)
escaped to the caller. The source runs `this.startTime = ...;
this.render();` unconditionally after `await this.initializeWebGPU(...)`
returns. -/
structure InitOutcome where
  renderLoopStarted : Bool
  propagatedError : Option InitError
deriving DecidableEq, Repr

/-- Evaluate the control flow of `initWebGPU()`: a normal return from
`initializeWebGPU` (including the swallowed no-GPU case) is followed by
`this.render()`; a thrown error skips the render call and escapes. -/
def initOutcome (p : Platform) : InitOutcome :=
  match setupWebGPU p with
  | Except.ok _ => ⟨true, none⟩
  | Except.error e => ⟨false, some e⟩

/-! #### Surface (canvas context) configuration -/

/-- The configuration installed by `context.configure({device, format,
alphaMode: "premultiplied"})` (lines 81-85). -/
structure SurfaceConfig where
  deviceId : Nat
  format : TexFormat
  premultipliedAlpha : Bool
deriving DecidableEq, Repr

/-- State of the single `"webgpu"` context:
`canvas.getContext("webgpu")` always yields the same context object, whose
active configuration is `none` until `configure` runs. -/
structure CanvasState where
  configured : Option SurfaceConfig
deriving DecidableEq, Repr

/-- Effect of `context.configure(cfg)`: installs `cfg`, replacing any previously
active configuration of the same context (WebGPU `configure` semantics). -/
def configureContext (_c : CanvasState) (cfg : SurfaceConfig) : CanvasState :=
  ⟨some cfg⟩

/-- The surface-configuration part of one run of the initializer
(lines 69-85): re-acquire the webgpu context of the canvas and `configure` it with the
negotiated device, the preferred canvas format, and premultiplied alpha. -/
def initSurface (c : CanvasState) (deviceId : Nat) : CanvasState :=
  configureContext c ⟨deviceId, TexFormat.preferredCanvas, true⟩

/-- Number of active configurations held by the webgpu context of the canvas. -/
def activeConfigCount (c : CanvasState) : Nat :=
  match c.configured with
  | none => 0
  | some _ => 1

end JsComponent

namespace TsxRenderer

open Engine

/-! ### `src/app/components/WebGPUImage.tsx` — the React renderer

The file holds two near-identical variants of `WebGPURenderer`; the second
adds an `IntersectionObserver`-driven `isVisible` gate. Where the variants
agree (uniform record, pointer handling, `isActive` discipline) one
definition covers both. -/

/-- Uniform buffer allocated at lines 228-231 and 656-659:
`device.createBuffer({ size: 64, usage: UNIFORM | COPY_DST })`. -/
def uniformBufferSize : Nat := 64

/-- WGSL size of `struct Uniforms { tintColor: vec4f, mousePos: vec2f,
resolution: vec2f, isHovered: f32, time: f32 }`: 16 + 8 + 8 + 4 + 4 = 40,
rounded up to the 16-byte struct alignment = 48 bytes. -/
def shaderRecordByteSize : Nat := 48

/-- The `Float32Array` packed each frame (lines 278-292 and 710-724):
tint color `[1,1,1,1]`, mouse position, canvas resolution, hover flag,
time, then three explicit padding zeros — thirteen 32-bit floats. -/
def uniformData (mouseX mouseY width height : ℚ) (isHovered : Bool)
    (time : ℚ) : List ℚ :=
  [1, 1, 1, 1, mouseX, mouseY, width, height,
   if isHovered then 1 else 0, time, 0, 0, 0]

/-- The per-frame queue write (lines 304 and 726):
`device.queue.writeBuffer(uniformBuffer, 0, uniformData)` — byte offset 0,
length 13 × 4 bytes. -/
def uniformWriteOp (mouseX mouseY width height : ℚ) (isHovered : Bool)
    (time : ℚ) : QueueOp :=
  QueueOp.writeBuffer 0
    ((uniformData mouseX mouseY width height isHovered time).length * 4)

/-! #### Asynchronous initialization and the `isActive` liveness flag

`initWebGPU` (lines 202-267 and 632-687) suspends twice: at
`await loadImage(src)` and at `await initDevice()`. The effect cleanup
(run on unmount or on a `src` change) sets `isActive = false`. The source
re-reads `isActive` exactly once — directly after the image decode
resumption (`if (!isActive) return;`) — and never after the device
negotiation resumption. -/

/-- Shared engine state mutated by the initialization path. -/
structure EngineState where
  /-- Flag: `imageRef.current = img` ran and the canvas was resized to the image. -/
  imageStored : Bool
  /-- context configured; texture, uniform buffer, bind group and pipeline
  created. -/
  gpuInstalled : Bool
  /-- Flag: `startTimeRef.current = performance.now()` ran. -/
  startTimeSet : Bool
  /-- Flag: `setGpuContext({...})` ran, arming the render effect. -/
  gpuContextSet : Bool
deriving DecidableEq, Repr

/-- Engine state before any initialization. -/
def initialEngine : EngineState :=
  ⟨false, false, false, false⟩

/-- Control flow of `initWebGPU` (lines 632-687; lines 202-267 are
identical in this respect), parameterized by the value the `isActive` flag
holds at each of the two suspension resumption points. After the image
decode the source checks `if (!isActive) return;`; after the device
negotiation NO check occurs, so the remainder of the body runs whatever
`aliveAfterDevice` is. -/
def initWebGPU (aliveAfterDecode aliveAfterDevice : Bool)
    (s : EngineState) : EngineState :=
  if aliveAfterDecode then
    { s with imageStored := true, gpuInstalled := true,
             startTimeSet := true, gpuContextSet := true }
  else s

/-! #### The visibility-gated frame scheduler (second variant) -/

/-- Scheduler state of the visibility-gated renderer: the `isVisible`
state (lines 460, 611-624), whether `setGpuContext` has delivered a GPU
context, whether `animationFrameRef.current` holds a live scheduled
callback, and `startTimeRef.current` (milliseconds). -/
structure SchedState where
  isVisible : Bool
  hasGpuContext : Bool
  pendingFrame : Bool
  startTime : ℚ
deriving DecidableEq, Repr

/-- External events driving the scheduler, each carrying the wall-clock
time (`performance.now()`, in milliseconds) at which it runs. -/
inductive SchedEvent where
  /-- the `IntersectionObserver` callback runs `setIsVisible b`. -/
  | visibility (visible : Bool) (now : ℚ)
  /-- the scheduled `requestAnimationFrame` callback fires. -/
  | frameFire (now : ℚ)
  /-- Completion of `initWebGPU`: `startTimeRef.current = performance.now()`
  then `setGpuContext({...})`. -/
  | initDone (now : ℚ)
deriving DecidableEq, Repr

/-- The wall-clock timestamp an event carries. -/
def SchedEvent.time : SchedEvent → ℚ
  | SchedEvent.visibility _ now => now
  | SchedEvent.frameFire now => now
  | SchedEvent.initDone now => now

/-- Whether the event is the `initDone` completion. -/
def SchedEvent.isInitDone : SchedEvent → Bool
  | SchedEvent.initDone _ => true
  | _ => false

/-- Whether the event is a visibility-regained transition. -/
def SchedEvent.turnsVisible : SchedEvent → Bool
  | SchedEvent.visibility true _ => true
  | _ => false

/-- Observable GPU work performed while handling one event: the elapsed
time values written to the uniform buffer, and the number of command
submissions. -/
structure FrameWork where
  uniformWrites : List ℚ
  submissions : Nat
deriving DecidableEq, Repr

/-- No GPU work. -/
def noWork : FrameWork :=
  ⟨[], 0⟩

/-- The body of `render()` (lines 704-746): computes
`time = (performance.now() - startTimeRef.current) / 1000`, writes the
uniform record, records one render pass, submits it, and re-arms
`animationFrameRef.current = requestAnimationFrame(render)`. -/
def renderFrame (s : SchedState) (now : ℚ) : SchedState × FrameWork :=
  ({ s with pendingFrame := true }, ⟨[(now - s.startTime) / 1000], 1⟩)

/-- One scheduler step (lines 701-765). A visibility change re-runs the
render effect: its cleanup (lines 751-755) cancels the pending callback
(the dedicated `!isVisible` effect at lines 758-765 does the same), and
the new effect body renders only under `gpuContext && isVisible`
(line 702). A fired callback runs `render` only if it was still scheduled.
`initDone` records the start timestamp, installs the GPU context, and the
render effect then renders only if visible. -/
def step (s : SchedState) : SchedEvent → SchedState × FrameWork
  | SchedEvent.visibility b now =>
      let s1 : SchedState := { s with isVisible := b, pendingFrame := false }
      if b && s.hasGpuContext then renderFrame s1 now else (s1, noWork)
  | SchedEvent.frameFire now =>
      if s.pendingFrame then
        renderFrame { s with pendingFrame := false } now
      else (s, noWork)
  | SchedEvent.initDone now =>
      let s1 : SchedState := { s with hasGpuContext := true, startTime := now }
      if s.isVisible then renderFrame s1 now else (s1, noWork)

/-- Run the scheduler over a list of events, accumulating the GPU work. -/
def runTrace (s : SchedState) : List SchedEvent → SchedState × FrameWork
  | [] => (s, noWork)
  | e :: es =>
      let p1 := step s e
      let p2 := runTrace p1.1 es
      (p2.1, ⟨p1.2.uniformWrites ++ p2.2.uniformWrites,
              p1.2.submissions + p2.2.submissions⟩)

/-- Scheduler invariant: an invisible surface has no pending scheduled
callback (the cleanup effects cancel it on every loss of visibility). -/
def VisInv (s : SchedState) : Prop :=
  s.isVisible = false → s.pendingFrame = false

instance (s : SchedState) : Decidable (VisInv s) := by
  unfold VisInv; infer_instance

/-! #### Pointer normalization -/

/-- Embedding of `saturate` (lines 336-338 and 767-769):
`Math.min(Math.max(value, 0), 1)`. -/
def saturate (value : ℚ) : ℚ :=
  min (max value 0) 1

/-- Element-local geometry of `canvas.getBoundingClientRect()`. -/
structure Rect where
  left : ℚ
  top : ℚ
  width : ℚ
  height : ℚ
deriving DecidableEq, Repr

/-- Embedding of `handleMouseMove` (lines 340-346 and 771-777): maps the client
coordinates of the pointer through the bounding rectangle of the element and saturates
each component before storing the normalized mouse position. -/
def handleMouseMove (clientX clientY : ℚ) (rect : Rect) : ℚ × ℚ :=
  (saturate ((clientX - rect.left) / rect.width),
   saturate ((clientY - rect.top) / rect.height))

end TsxRenderer

namespace Engine

/-- Resource-factory failure modes of the spec used here (§7). -/
inductive ResourceError where
  | InvalidLayout
  | OutOfBounds
deriving DecidableEq, Repr

/-- A uniform buffer, identified by its allocated byte size. -/
structure UniformBuffer where
  size : Nat
deriving DecidableEq, Repr

/-- Modelled from the spec: the Resource Factory contract
`createUniformBuffer(byteSize) -> Buffer` — "byteSize must be a multiple
of 16; fails with `InvalidLayout` otherwise" (§4.2). The repository has no
reusable factory function: its call sites inline `device.createBuffer`
with the constant sizes 48 (`src/webgpu-image.js` lines 88-91) and 64
(`src/app/components/WebGPUImage.tsx` lines 228-231 and 656-659). -/
def createUniformBuffer (byteSize : Nat) : Except ResourceError UniformBuffer :=
  if byteSize % 16 = 0 then Except.ok ⟨byteSize⟩
  else Except.error ResourceError.InvalidLayout

/-- The bounds condition of the contract
`writeUniformBuffer(buffer, byteOffset, data)` of the spec (§4.2): data length plus
offset must not exceed the buffer size. -/
def writeInBounds : QueueOp → Nat → Bool
  | QueueOp.writeBuffer byteOffset byteLength, size =>
      byteOffset + byteLength ≤ size
  | _, _ => true

/-- The per-frame queue operations of the `render` body of the TSX renderer:
one full-record uniform write followed by one submission. -/
def tsxFrameOps (mouseX mouseY width height : ℚ) (isHovered : Bool)
    (time : ℚ) : List QueueOp :=
  [TsxRenderer.uniformWriteOp mouseX mouseY width height isHovered time,
   QueueOp.submit]

/-- The whole queue trace of an engine run: initialization (texture copy)
followed by `frames` rendered frames. Frame parameters are irrelevant to
ordering, so a fixed representative frame is used. -/
def engineTrace (imgWidth imgHeight frames : Nat) : List QueueOp :=
  initQueueOps imgWidth imgHeight ++
    (List.replicate frames (tsxFrameOps 0 0 0 0 false 0)).flatten

end Engine

/-! ## Helper lemmas for the visibility-gated scheduler -/

namespace TsxRenderer

/-- A step whose event does not regain visibility keeps an invisible,
invariant-satisfying scheduler invisible, performs no GPU work, and
preserves the invariant. -/
theorem step_invisible_silent (s : SchedState) (e : SchedEvent)
    (hinv : VisInv s) (hs : s.isVisible = false)
    (he : e.turnsVisible = false) :
    (step s e).2 = noWork ∧ (step s e).1.isVisible = false ∧
      VisInv (step s e).1 := by
  cases e with
  | visibility b now =>
      cases b with
      | false =>
          simp [step, noWork, VisInv]
      | true =>
          simp [SchedEvent.turnsVisible] at he
  | frameFire now =>
      have hp : s.pendingFrame = false := hinv hs
      simp [step, hp, hs, noWork, VisInv]
  | initDone now =>
      have hp : s.pendingFrame = false := hinv hs
      simp [step, hs, hp, noWork, VisInv]

/-- Trace version of `step_invisible_silent`: a scheduler that starts
invisible and never regains visibility performs no GPU work at all. -/
theorem runTrace_invisible_silent (es : List SchedEvent) (s : SchedState)
    (hinv : VisInv s) (hs : s.isVisible = false)
    (hes : ∀ e ∈ es, e.turnsVisible = false) :
    (runTrace s es).2 = noWork ∧ (runTrace s es).1.isVisible = false ∧
      VisInv (runTrace s es).1 := by
  induction es generalizing s with
  | nil => exact ⟨rfl, hs, hinv⟩
  | cons e es ih =>
      have he : e.turnsVisible = false := hes e (List.mem_cons_self e es)
      have hstep := step_invisible_silent s e hinv hs he
      have hrest := ih (step s e).1 hstep.2.2 hstep.2.1
        (fun e' he' => hes e' (List.mem_cons_of_mem e he'))
      simp only [runTrace]
      refine ⟨?_, hrest.2.1, hrest.2.2⟩
      have h1 : (step s e).2 = noWork := hstep.1
      have h2 : (runTrace (step s e).1 es).2 = noWork := hrest.1
      simp [h1, h2, noWork]

/-- A step on an event other than `initDone` leaves the recorded start
timestamp unchanged. -/
theorem step_startTime_eq (s : SchedState) (e : SchedEvent)
    (he : e.isInitDone = false) :
    (step s e).1.startTime = s.startTime := by
  cases e with
  | visibility b now =>
      by_cases hb : (b && s.hasGpuContext) = true <;>
        simp [step, hb, renderFrame]
  | frameFire now =>
      by_cases hp : s.pendingFrame = true <;>
        simp [step, hp, renderFrame]
  | initDone now =>
      simp [SchedEvent.isInitDone] at he

/-- Every uniform write performed by a step on an event other than
`initDone` carries the elapsed time from the stored start timestamp to the
wall clock of the event, converted to seconds. -/
theorem step_writes_elapsed (s : SchedState) (e : SchedEvent)
    (he : e.isInitDone = false) :
    ∀ w ∈ (step s e).2.uniformWrites,
      w = (e.time - s.startTime) / 1000 := by
  cases e with
  | visibility b now =>
      by_cases hb : (b && s.hasGpuContext) = true <;>
        simp [step, hb, renderFrame, noWork, SchedEvent.time]
  | frameFire now =>
      by_cases hp : s.pendingFrame = true <;>
        simp [step, hp, renderFrame, noWork, SchedEvent.time]
  | initDone now =>
      simp [SchedEvent.isInitDone] at he

/-- Trace version: along events that contain no re-initialization, the
start timestamp is never modified, and every uniform write carries the
wall-clock elapsed time since that unchanged start timestamp. -/
theorem runTrace_elapsed (es : List SchedEvent) (s : SchedState)
    (hes : ∀ e ∈ es, e.isInitDone = false) :
    (runTrace s es).1.startTime = s.startTime ∧
      ∀ w ∈ (runTrace s es).2.uniformWrites,
        ∃ e ∈ es, w = (e.time - s.startTime) / 1000 := by
  induction es generalizing s with
  | nil =>
      refine ⟨rfl, ?_⟩
      intro w hw
      simp [runTrace, noWork] at hw
  | cons e es ih =>
      have he : e.isInitDone = false := hes e (List.mem_cons_self e es)
      have hst : (step s e).1.startTime = s.startTime :=
        step_startTime_eq s e he
      have hrest := ih (step s e).1
        (fun e' he' => hes e' (List.mem_cons_of_mem e he'))
      constructor
      · simp only [runTrace]
        exact hrest.1.trans hst
      · intro w hw
        simp only [runTrace, List.mem_append] at hw
        cases hw with
        | inl hw1 =>
            exact ⟨e, List.mem_cons_self e es,
              step_writes_elapsed s e he w hw1⟩
        | inr hw2 =>
            obtain ⟨e', he', hval⟩ := hrest.2 w hw2
            exact ⟨e', List.mem_cons_of_mem e he', hval ▸ hst ▸ rfl⟩
end TsxRenderer

/-! ## Theorems for the claims -/

/-- C1: the claim states that after disposal or source reassignment every
asynchronous completion of an in-flight initialization is a no-op against
engine state, the liveness flag being checked after EVERY suspension
resumption point. Evaluated at the failing input — the flag already false
at the device-negotiation resumption (`aliveAfterDevice = false`) while it
was still true at the image-decode resumption — the code nevertheless
installs the GPU resources, sets the start timestamp and sets the GPU
context (no `isActive` check follows `await initDevice()`), arming the
frame-loop effect; only the image-decode resumption is guarded. -/
theorem tsx_stale_device_completion_installs_resources :
    TsxRenderer.initWebGPU true false TsxRenderer.initialEngine =
      ⟨true, true, true, true⟩ ∧
    (TsxRenderer.initWebGPU true false
        TsxRenderer.initialEngine).gpuContextSet = true ∧
    (TsxRenderer.initWebGPU true false
        TsxRenderer.initialEngine).gpuInstalled = true ∧
    TsxRenderer.initWebGPU false false TsxRenderer.initialEngine =
      TsxRenderer.initialEngine := by
  decide

/-- C2: whenever the surface is not visible the frame scheduler issues
zero frame submissions and zero uniform-buffer writes; a visibility
true-to-false transition cancels the pending scheduled callback and
performs no GPU work, and no work happens until visibility returns. -/
theorem tsx_invisible_scheduler_silent (s : TsxRenderer.SchedState)
    (es : List TsxRenderer.SchedEvent)
    (hinv : TsxRenderer.VisInv s) (hs : s.isVisible = false)
    (hes : ∀ e ∈ es, e.turnsVisible = false) :
    (∀ (s1 : TsxRenderer.SchedState) (now : ℚ),
        (TsxRenderer.step s1
            (TsxRenderer.SchedEvent.visibility false now)).1.pendingFrame =
          false ∧
        (TsxRenderer.step s1
            (TsxRenderer.SchedEvent.visibility false now)).2 =
          TsxRenderer.noWork) ∧
    (TsxRenderer.runTrace s es).2.submissions = 0 ∧
    (TsxRenderer.runTrace s es).2.uniformWrites = [] := by
  have h := TsxRenderer.runTrace_invisible_silent es s hinv hs hes
  refine ⟨?_, ?_, ?_⟩
  · intro s1 now
    constructor <;> simp [TsxRenderer.step, TsxRenderer.noWork]
  · rw [h.1]
    rfl
  · rw [h.1]
    rfl

/-- Witness for C2: a concrete invisible scheduler (GPU context ready, no
pending callback, start time 0) driven by a fired callback, a visibility
loss and a completed initialization never submits or writes. -/
theorem tsx_invisible_scheduler_silent_witness :
    TsxRenderer.VisInv ⟨false, true, false, 0⟩ ∧
    (⟨false, true, false, 0⟩ : TsxRenderer.SchedState).isVisible = false ∧
    (∀ e ∈ [TsxRenderer.SchedEvent.frameFire 5,
            TsxRenderer.SchedEvent.visibility false 7,
            TsxRenderer.SchedEvent.initDone 9], e.turnsVisible = false) ∧
    (TsxRenderer.runTrace ⟨false, true, false, 0⟩
        [TsxRenderer.SchedEvent.frameFire 5,
         TsxRenderer.SchedEvent.visibility false 7,
         TsxRenderer.SchedEvent.initDone 9]).2.submissions = 0 :=
  ⟨by decide, by decide, by decide,
   (tsx_invisible_scheduler_silent ⟨false, true, false, 0⟩
      [TsxRenderer.SchedEvent.frameFire 5,
       TsxRenderer.SchedEvent.visibility false 7,
       TsxRenderer.SchedEvent.initDone 9]
      (by decide) (by decide) (by decide)).2.1⟩

/-- C3: the elapsed time written into the uniform state on every frame is
the wall-clock time of the frame minus the start timestamp, divided by
1000 (milliseconds to seconds); the start timestamp is written by the
initialization completion and is never modified by visibility pauses,
resumes or frame callbacks, so the phase observed after a resume includes
the paused interval. -/
theorem tsx_elapsed_time_wall_clock (s : TsxRenderer.SchedState)
    (es : List TsxRenderer.SchedEvent)
    (hes : ∀ e ∈ es, e.isInitDone = false) :
    (∀ (s1 : TsxRenderer.SchedState) (t0 : ℚ),
        (TsxRenderer.step s1
            (TsxRenderer.SchedEvent.initDone t0)).1.startTime = t0) ∧
    (TsxRenderer.runTrace s es).1.startTime = s.startTime ∧
    (∀ w ∈ (TsxRenderer.runTrace s es).2.uniformWrites,
        ∃ e ∈ es, w = (e.time - s.startTime) / 1000) := by
  have h := TsxRenderer.runTrace_elapsed es s hes
  refine ⟨?_, h.1, h.2⟩
  intro s1 t0
  by_cases hv : s1.isVisible = true <;>
    simp [TsxRenderer.step, hv, TsxRenderer.renderFrame]

/-- Witness for C3: after initialization at wall clock 0, a pause at
100 ms and a resume at 400 ms, the start timestamp is still 0 and the
frame rendered at the resume writes 400/1000 seconds — the paused
interval is included in the phase. -/
theorem tsx_elapsed_time_wall_clock_witness :
    (∀ e ∈ [TsxRenderer.SchedEvent.visibility false 100,
            TsxRenderer.SchedEvent.visibility true 400],
        e.isInitDone = false) ∧
    (TsxRenderer.runTrace ⟨true, true, true, 0⟩
        [TsxRenderer.SchedEvent.visibility false 100,
         TsxRenderer.SchedEvent.visibility true 400]).1.startTime = 0 :=
  ⟨by decide,
   (tsx_elapsed_time_wall_clock ⟨true, true, true, 0⟩
      [TsxRenderer.SchedEvent.visibility false 100,
       TsxRenderer.SchedEvent.visibility true 400]
      (by decide)).2.1⟩

/-- C4: the claim states at most one live scheduled frame callback exists
per surface, every new scheduling happening from inside the previous
callback or after cancelling it. Evaluated on the `<webgpu-image>`
element: a completed `initWebGPU` run schedules a callback via `render()`;
a `src` attribute change triggers `attributeChangedCallback`, whose second
completed `initWebGPU` run schedules another callback while the first is
still live (the source stores no handle and never cancels), leaving two
live callbacks. -/
theorem js_src_change_leaves_two_live_callbacks :
    (JsComponent.initWebGPU (JsComponent.initWebGPU ⟨0⟩)).scheduled = 2 ∧
    1 < (JsComponent.initWebGPU (JsComponent.initWebGPU ⟨0⟩)).scheduled := by
  decide

/-- C5: the claim states a no-GPU platform fails with
`UnsupportedPlatform`, a missing adapter with `NoAdapter`, every such
failure propagating to the caller as a terminal error with the scheduler
never proceeding past Loading. Evaluated on the `<webgpu-image>` element
at the failing input (no GPU capability): `initializeWebGPU` swallows the
failure (console log, normal return) and `initWebGPU` then starts the
render loop anyway, propagating no error. The taxonomy itself and the
no-adapter path behave as claimed. -/
theorem js_no_gpu_failure_starts_render_loop :
    JsComponent.initOutcome JsComponent.Platform.noGpu =
      ⟨true, none⟩ ∧
    JsComponent.initDevice JsComponent.Platform.noGpu =
      Except.error JsComponent.InitError.UnsupportedPlatform ∧
    JsComponent.initDevice JsComponent.Platform.noAdapter =
      Except.error JsComponent.InitError.NoAdapter ∧
    JsComponent.initOutcome JsComponent.Platform.noAdapter =
      ⟨false, some JsComponent.InitError.NoAdapter⟩ :=
  ⟨rfl, rfl, rfl, rfl⟩

/-- C6: running the Graphics Context Initializer twice on the same surface
leaves exactly one active surface configuration — the second run
reconfigures the same webgpu context, replacing the first binding, with
no duplicate and no leaked prior configuration. -/
theorem js_reinit_leaves_single_configuration (c : JsComponent.CanvasState)
    (d1 d2 : Nat) :
    JsComponent.activeConfigCount
        (JsComponent.initSurface (JsComponent.initSurface c d1) d2) = 1 ∧
    (JsComponent.initSurface (JsComponent.initSurface c d1) d2).configured =
      some ⟨d2, Engine.TexFormat.preferredCanvas, true⟩ :=
  ⟨rfl, rfl⟩

/-- C7: `createUniformBuffer(byteSize)` succeeds with a uniform buffer of
exactly that size when `byteSize` is a multiple of 16 and fails with
`InvalidLayout` otherwise; the two sizes the repository allocates (48 and
64 bytes) both succeed. -/
theorem createUniformBuffer_multiple_of_16 (byteSize : Nat) :
    (Engine.createUniformBuffer byteSize = Except.ok ⟨byteSize⟩ ↔
      byteSize % 16 = 0) ∧
    (Engine.createUniformBuffer byteSize =
        Except.error Engine.ResourceError.InvalidLayout ↔
      ¬ byteSize % 16 = 0) ∧
    Engine.createUniformBuffer 48 = Except.ok ⟨48⟩ ∧
    Engine.createUniformBuffer 64 = Except.ok ⟨64⟩ := by
  refine ⟨?_, ?_, rfl, rfl⟩
  · constructor
    · intro h
      by_contra hmod
      simp [Engine.createUniformBuffer, hmod] at h
    · intro hmod
      simp [Engine.createUniformBuffer, hmod]
  · constructor
    · intro h hmod
      simp [Engine.createUniformBuffer, hmod] at h
    · intro hmod
      simp [Engine.createUniformBuffer, hmod]

/-- Witness for C7: a multiple of 16 (32 bytes) succeeds and a non-multiple
(20 bytes) fails with `InvalidLayout`. -/
theorem createUniformBuffer_multiple_of_16_witness :
    Engine.createUniformBuffer 32 = Except.ok ⟨32⟩ ∧
    Engine.createUniformBuffer 20 =
      Except.error Engine.ResourceError.InvalidLayout :=
  ⟨(createUniformBuffer_multiple_of_16 32).1.mpr (by norm_num),
   (createUniformBuffer_multiple_of_16 20).2.1.mpr (by norm_num)⟩

/-- C8: for every pointer-move event and element bounding size with
positive width and height, the normalized position written into uniform
state is componentwise `min(max(x/w, 0), 1)` over the element-local
coordinates, lies in `[0,1] × [0,1]`, and saturates (does not wrap) for
coordinates outside the element. -/
theorem tsx_mouse_position_clamped (clientX clientY : ℚ)
    (rect : TsxRenderer.Rect)
    (hw : 0 < rect.width) (hh : 0 < rect.height) :
    TsxRenderer.handleMouseMove clientX clientY rect =
      (min (max ((clientX - rect.left) / rect.width) 0) 1,
       min (max ((clientY - rect.top) / rect.height) 0) 1) ∧
    0 ≤ (TsxRenderer.handleMouseMove clientX clientY rect).1 ∧
    (TsxRenderer.handleMouseMove clientX clientY rect).1 ≤ 1 ∧
    0 ≤ (TsxRenderer.handleMouseMove clientX clientY rect).2 ∧
    (TsxRenderer.handleMouseMove clientX clientY rect).2 ≤ 1 ∧
    ((clientX - rect.left) / rect.width ≤ 0 →
      (TsxRenderer.handleMouseMove clientX clientY rect).1 = 0) ∧
    (1 ≤ (clientX - rect.left) / rect.width →
      (TsxRenderer.handleMouseMove clientX clientY rect).1 = 1) := by
  refine ⟨rfl, ?_, ?_, ?_, ?_, ?_, ?_⟩
  · exact le_min (le_max_right _ _) zero_le_one
  · exact min_le_right _ _
  · exact le_min (le_max_right _ _) zero_le_one
  · exact min_le_right _ _
  · intro hx
    have hmax : max ((clientX - rect.left) / rect.width) 0 = 0 :=
      max_eq_right hx
    simp [TsxRenderer.handleMouseMove, TsxRenderer.saturate, hmax]
  · intro hx
    have hmax : max ((clientX - rect.left) / rect.width) 0 =
        (clientX - rect.left) / rect.width :=
      max_eq_left (le_trans zero_le_one hx)
    simp [TsxRenderer.handleMouseMove, TsxRenderer.saturate, hmax,
      min_eq_right hx]

/-- Witness for C8: a pointer at client position (250, -5) over an element
with bounding rectangle (left 50, top 0, width 100, height 50) — both
coordinates outside the element — normalizes to exactly (1, 0). -/
theorem tsx_mouse_position_clamped_witness :
    (0 : ℚ) < 100 ∧ (0 : ℚ) < 50 ∧
    TsxRenderer.handleMouseMove 250 (-5) ⟨50, 0, 100, 50⟩ =
      (min (max ((250 - 50) / 100) 0) 1,
       min (max ((-5 - 0) / 50) 0) 1) :=
  ⟨by norm_num, by norm_num,
   (tsx_mouse_position_clamped 250 (-5) ⟨50, 0, 100, 50⟩
      (by norm_num) (by norm_num)).1⟩

/-- C9: `createTextureFromImage` (realized as `createTextureAndSampler` in
the source) allocates a 2D texture sized exactly to the pixel width and
height of the decoded image, with format `rgba8unorm` and usage flags
permitting sampling, copy-destination and render-attachment use, and the
full width-by-height pixel copy is the very first queue operation of the
engine trace — ahead of every frame submission that samples the
texture. -/
theorem texture_sized_to_image_with_queued_copy
    (imgWidth imgHeight frames : Nat) :
    (Engine.createTextureAndSampler imgWidth imgHeight).1.width =
      imgWidth ∧
    (Engine.createTextureAndSampler imgWidth imgHeight).1.height =
      imgHeight ∧
    (Engine.createTextureAndSampler imgWidth imgHeight).1.format =
      Engine.TexFormat.rgba8unorm ∧
    (Engine.createTextureAndSampler imgWidth imgHeight).1.usage &&&
        Engine.GPUTextureUsage_TEXTURE_BINDING =
      Engine.GPUTextureUsage_TEXTURE_BINDING ∧
    (Engine.createTextureAndSampler imgWidth imgHeight).1.usage &&&
        Engine.GPUTextureUsage_COPY_DST =
      Engine.GPUTextureUsage_COPY_DST ∧
    (Engine.createTextureAndSampler imgWidth imgHeight).1.usage &&&
        Engine.GPUTextureUsage_RENDER_ATTACHMENT =
      Engine.GPUTextureUsage_RENDER_ATTACHMENT ∧
    Engine.initQueueOps imgWidth imgHeight =
      [Engine.QueueOp.copyExternalImage imgWidth imgHeight] ∧
    (Engine.engineTrace imgWidth imgHeight frames).head? =
      some (Engine.QueueOp.copyExternalImage imgWidth imgHeight) := by
  refine ⟨rfl, rfl, rfl, ?_, ?_, ?_, rfl, rfl⟩ <;>
    · simp only [Engine.createTextureAndSampler]
      decide

/-- C10: every per-frame uniform write of both render loops targets byte
offset 0 with the full fixed record: the `<webgpu-image>` element writes
48 bytes (twelve floats, covering its whole 48-byte shader record) into
its 48-byte buffer, and the React renderer writes 52 bytes (thirteen
floats, covering its whole 48-byte shader record) into its 64-byte
buffer; both writes satisfy the offset-plus-length bound of
`writeUniformBuffer`, so an out-of-bounds write is unreachable during
steady-state rendering. -/
theorem uniform_writes_offset_zero_in_bounds
    (time mouseX mouseY width height : ℚ) (isHovered : Bool) (t2 : ℚ) :
    JsComponent.updateUniformWriteOp time =
      Engine.QueueOp.writeBuffer 0 48 ∧
    Engine.writeInBounds (JsComponent.updateUniformWriteOp time)
      JsComponent.uniformBufferSize = true ∧
    JsComponent.shaderRecordByteSize ≤ 48 ∧
    TsxRenderer.uniformWriteOp mouseX mouseY width height isHovered t2 =
      Engine.QueueOp.writeBuffer 0 52 ∧
    Engine.writeInBounds
      (TsxRenderer.uniformWriteOp mouseX mouseY width height isHovered t2)
      TsxRenderer.uniformBufferSize = true ∧
    TsxRenderer.shaderRecordByteSize ≤ 52 ∧
    (JsComponent.updateUniformData time).length * 4 = 48 ∧
    (TsxRenderer.uniformData mouseX mouseY width height isHovered
        t2).length * 4 = 52 :=
  ⟨rfl, rfl, by norm_num [JsComponent.shaderRecordByteSize], rfl, rfl,
   by norm_num [TsxRenderer.shaderRecordByteSize], rfl, rfl⟩
